import Mathlib

/-!
Shallow embedding of `Frontend/library/src/Inputs/TouchControllerFake.ts`.

The class `TouchControllerFake` emulates a single-pointer mouse from touch
input.  Its mutable fields `fakeTouchFinger` (nullable) and
`videoElementParentClientRect` (undefined until set) become an explicit
`State`.  The three DOM handlers `onTouchStart`, `onTouchEnd`, `onTouchMove`
become pure functions from a readiness flag (the collaborator call
`videoPlayer.isVideoReady()`), the state and the incoming `TouchEvent` to an
`Except`-wrapped new state plus an `Output` record collecting the protocol
messages sent through `streamMessageController.toStreamerHandlers`, the
synthetic hover DOM events dispatched on the video parent element, and
whether `preventDefault` was called.  Reading `this.videoElementParentClientRect.left`
while the rect was never set, or `changedTouches[0].identifier` on an empty
list, throws a TypeError in JavaScript; these are the `TsError` branches.
The coordinate converter is an external collaborator and is kept abstract as
a pair of functions passed in.
-/

namespace TouchControllerFake

/-- A pair of stream coordinates as returned by the coordinate converter. -/
structure Vec2 where
  x : Int
  y : Int
  deriving DecidableEq, Repr

/-- One entry of a DOM `TouchList`: its stable identifier and client coordinates. -/
structure Touch where
  identifier : Int
  clientX : Int
  clientY : Int
  deriving DecidableEq, Repr

/-- Whether `touch.target` is the video element (`videoPlayer.getVideoElement()`) or not. -/
inductive Target where
  | video
  | other
  deriving DecidableEq, Repr

/-- The parts of a DOM `TouchEvent` the handlers read. -/
structure TouchEvent where
  target : Target
  touches : List Touch
  changedTouches : List Touch
  deriving DecidableEq, Repr

/-- The parts of the cached `DOMRect` the handlers read. -/
structure Rect where
  left : Int
  top : Int
  deriving DecidableEq, Repr

/-- The tracked finger record, as in the `FakeTouchFinger` interface. -/
structure FakeTouchFinger where
  id : Int
  x : Int
  y : Int
  deriving DecidableEq, Repr

/-- The external `CoordinateConverter` collaborator, kept abstract: the two
conversion functions the handlers call. -/
structure Converter where
  normalizeAndQuantizeUnsigned : Int → Int → Vec2
  normalizeAndQuantizeSigned : Int → Int → Vec2

/-- Modelled from the spec: the constant `MouseButton.mainButton` identifying
the primary (left) mouse button; `MouseButtons.ts` is not under `src/`.  The
W3C main-button id is 0; no claim depends on the numeric value. -/
def mainButton : Int := 0

/-- A protocol message handed to `toStreamerHandlers.get(name)(payload)`. -/
structure StreamMessage where
  name : String
  payload : List Int
  deriving DecidableEq, Repr

/-- A synthetic `MouseEvent` dispatched on the video parent element, carrying
the originating touch's client coordinates. -/
inductive HoverEvent where
  | mouseenter (clientX clientY : Int)
  | mouseleave (clientX clientY : Int)
  deriving DecidableEq, Repr

/-- Everything a single handler invocation emits. -/
structure Output where
  messages : List StreamMessage
  hoverEvents : List HoverEvent
  prevented : Bool
  deriving DecidableEq, Repr

/-- JavaScript TypeErrors the handlers can throw: reading `.left` of the
never-set `videoElementParentClientRect`, or `.identifier` of
`changedTouches[0]` when the list is empty. -/
inductive TsError where
  | rectUnset
  | undefinedTouch
  deriving DecidableEq, Repr

/-- The mutable fields of the class: the nullable `fakeTouchFinger` and the
possibly-never-set `videoElementParentClientRect`. -/
structure State where
  fakeTouchFinger : Option FakeTouchFinger
  videoElementParentClientRect : Option Rect
  deriving DecidableEq, Repr

/-- The state right after the constructor: no finger tracked, rect never set. -/
def initialState : State := ⟨none, none⟩

/-- The empty output of a handler that returned before `preventDefault`. -/
def silentOutput : Output := ⟨[], [], false⟩

/-- `setVideoElementParentClientRect`: overwrite the cached rect. -/
def setVideoElementParentClientRect (s : State) (rect : Rect) : State :=
  { s with videoElementParentClientRect := some rect }

/-- `onTouchStart`: guard on readiness and target, then create the finger from
the first changed touch, dispatch `mouseenter`, send `MouseDown`; always
`preventDefault` once past the guard. -/
def onTouchStart (ready : Bool) (conv : Converter) (s : State) (touch : TouchEvent) :
    Except TsError (State × Output) :=
  if ready = false ∨ touch.target ≠ Target.video then
    .ok (s, silentOutput)
  else
    match s.fakeTouchFinger with
    | none =>
      match touch.changedTouches with
      | [] => .error .undefinedTouch
      | first_touch :: _ =>
        match s.videoElementParentClientRect with
        | none => .error .rectUnset
        | some rect =>
          let finger : FakeTouchFinger :=
            { id := first_touch.identifier
              x := first_touch.clientX - rect.left
              y := first_touch.clientY - rect.top }
          let coord := conv.normalizeAndQuantizeUnsigned finger.x finger.y
          .ok ({ s with fakeTouchFinger := some finger },
            { messages := [⟨"MouseDown", [mainButton, coord.x, coord.y]⟩]
              hoverEvents := [.mouseenter first_touch.clientX first_touch.clientY]
              prevented := true })
    | some _ => .ok (s, ⟨[], [], true⟩)

/-- The `for` loop of `onTouchEnd`: scan `changedTouches` for the tracked id;
on the first match send `MouseUp`, dispatch `mouseleave`, null the finger and
`break`. -/
def touchEndScan (conv : Converter) (rect? : Option Rect) (finger : FakeTouchFinger) :
    List Touch → Except TsError (Option FakeTouchFinger × List StreamMessage × List HoverEvent)
  | [] => .ok (some finger, [], [])
  | touch :: rest =>
    if touch.identifier = finger.id then
      match rect? with
      | none => .error .rectUnset
      | some rect =>
        let x := touch.clientX - rect.left
        let y := touch.clientY - rect.top
        let coord := conv.normalizeAndQuantizeUnsigned x y
        .ok (none, [⟨"MouseUp", [mainButton, coord.x, coord.y]⟩],
          [.mouseleave touch.clientX touch.clientY])
    else
      touchEndScan conv rect? finger rest

/-- `onTouchEnd`: guard `!isVideoReady() || fakeTouchFinger == null` returns
before `preventDefault`; otherwise run the scan and `preventDefault`. -/
def onTouchEnd (ready : Bool) (conv : Converter) (s : State) (touchEvent : TouchEvent) :
    Except TsError (State × Output) :=
  if ready = false then
    .ok (s, silentOutput)
  else
    match s.fakeTouchFinger with
    | none => .ok (s, silentOutput)
    | some finger =>
      match touchEndScan conv s.videoElementParentClientRect finger touchEvent.changedTouches with
      | .error err => .error err
      | .ok (finger', msgs, hovers) =>
        .ok ({ s with fakeTouchFinger := finger' }, ⟨msgs, hovers, true⟩)

/-- The `for` loop of `onTouchMove`: scan `touches` for the tracked id; on the
first match send `MouseMove` with absolute and delta coordinates, update the
finger position and `break`. -/
def touchMoveScan (conv : Converter) (rect? : Option Rect) (finger : FakeTouchFinger) :
    List Touch → Except TsError (FakeTouchFinger × List StreamMessage)
  | [] => .ok (finger, [])
  | touch :: rest =>
    if touch.identifier = finger.id then
      match rect? with
      | none => .error .rectUnset
      | some rect =>
        let x := touch.clientX - rect.left
        let y := touch.clientY - rect.top
        let coord := conv.normalizeAndQuantizeUnsigned x y
        let delta := conv.normalizeAndQuantizeSigned (x - finger.x) (y - finger.y)
        .ok ({ finger with x := x, y := y },
          [⟨"MouseMove", [coord.x, coord.y, delta.x, delta.y]⟩])
    else
      touchMoveScan conv rect? finger rest

/-- `onTouchMove`: guard `!isVideoReady() || fakeTouchFinger == null` returns
before `preventDefault`; otherwise run the scan and `preventDefault`. -/
def onTouchMove (ready : Bool) (conv : Converter) (s : State) (touchEvent : TouchEvent) :
    Except TsError (State × Output) :=
  if ready = false then
    .ok (s, silentOutput)
  else
    match s.fakeTouchFinger with
    | none => .ok (s, silentOutput)
    | some finger =>
      match touchMoveScan conv s.videoElementParentClientRect finger touchEvent.touches with
      | .error err => .error err
      | .ok (finger', msgs) =>
        .ok ({ s with fakeTouchFinger := some finger' }, ⟨msgs, [], true⟩)

/-- An external stimulus: one of the three touch events, or a call to
`setVideoElementParentClientRect`. -/
inductive Event where
  | touchStart (e : TouchEvent)
  | touchMove (e : TouchEvent)
  | touchEnd (e : TouchEvent)
  | setRect (r : Rect)
  deriving Repr

/-- One step of the component: dispatch a stimulus, with the readiness the
video player reports at that instant. -/
def step (conv : Converter) (s : State) : Bool × Event → Except TsError (State × Output)
  | (ready, .touchStart e) => onTouchStart ready conv s e
  | (ready, .touchMove e) => onTouchMove ready conv s e
  | (ready, .touchEnd e) => onTouchEnd ready conv s e
  | (_, .setRect r) => .ok (setVideoElementParentClientRect s r, silentOutput)

/-- Run a sequence of stimuli, accumulating the protocol-message trace. -/
def runTrace (conv : Converter) (s : State) :
    List (Bool × Event) → Except TsError (State × List StreamMessage)
  | [] => .ok (s, [])
  | ev :: rest =>
    match step conv s ev with
    | .error err => .error err
    | .ok (s', out) =>
      match runTrace conv s' rest with
      | .error err => .error err
      | .ok (s'', msgs) => .ok (s'', out.messages ++ msgs)

/-- A concrete converter instance used to evaluate witnesses. -/
def idConverter : Converter :=
  { normalizeAndQuantizeUnsigned := fun x y => ⟨x, y⟩
    normalizeAndQuantizeSigned := fun x y => ⟨x, y⟩ }

/-- C1: while no finger is tracked, the video is ready and a touch-start
targets the video element with a non-empty changed-touch list, the handler
moves to Tracking with the first changed touch's identifier and its
rect-relative position, dispatches one synthetic `mouseenter` carrying the
touch's client coordinates, and sends exactly one `MouseDown` with payload
`[mainButton, u.x, u.y]` where `u` is `normalizeAndQuantizeUnsigned` of the
local position. -/
theorem C1_touchStart_creates_tracking (conv : Converter) (s : State) (e : TouchEvent)
    (t : Touch) (rest : List Touch) (rect : Rect)
    (hf : s.fakeTouchFinger = none)
    (ht : e.target = Target.video)
    (hc : e.changedTouches = t :: rest)
    (hr : s.videoElementParentClientRect = some rect) :
    onTouchStart true conv s e =
      .ok (⟨some ⟨t.identifier, t.clientX - rect.left, t.clientY - rect.top⟩, some rect⟩,
        { messages := [⟨"MouseDown",
            [mainButton,
             (conv.normalizeAndQuantizeUnsigned (t.clientX - rect.left) (t.clientY - rect.top)).x,
             (conv.normalizeAndQuantizeUnsigned (t.clientX - rect.left) (t.clientY - rect.top)).y]⟩]
          hoverEvents := [.mouseenter t.clientX t.clientY]
          prevented := true }) := by
  obtain ⟨f, r⟩ := s
  simp only at hf hr
  subst hf hr
  simp [onTouchStart, ht, hc]

/-- Scanning a touch list with no entry matching the tracked id leaves the
finger unchanged and sends nothing (`onTouchMove` loop falls through). -/
theorem touchMoveScan_nomatch (conv : Converter) (rect? : Option Rect)
    (finger : FakeTouchFinger) (ts : List Touch)
    (h : ∀ t ∈ ts, t.identifier ≠ finger.id) :
    touchMoveScan conv rect? finger ts = .ok (finger, []) := by
  induction ts with
  | nil => rfl
  | cons t rest ih =>
    simp only [touchMoveScan]
    rw [if_neg (h t (List.mem_cons_self t rest))]
    exact ih fun t' ht' => h t' (List.mem_cons_of_mem t ht')

/-- The `onTouchMove` loop stops at the first matching touch: the result
depends only on the entries up to and including the first match. -/
theorem touchMoveScan_first_match (conv : Converter) (rect : Rect)
    (finger : FakeTouchFinger) (pre : List Touch) (t : Touch) (rest : List Touch)
    (hpre : ∀ t' ∈ pre, t'.identifier ≠ finger.id) (hm : t.identifier = finger.id) :
    touchMoveScan conv (some rect) finger (pre ++ t :: rest) =
      .ok (⟨finger.id, t.clientX - rect.left, t.clientY - rect.top⟩,
        [⟨"MouseMove",
          [(conv.normalizeAndQuantizeUnsigned (t.clientX - rect.left) (t.clientY - rect.top)).x,
           (conv.normalizeAndQuantizeUnsigned (t.clientX - rect.left) (t.clientY - rect.top)).y,
           (conv.normalizeAndQuantizeSigned (t.clientX - rect.left - finger.x)
             (t.clientY - rect.top - finger.y)).x,
           (conv.normalizeAndQuantizeSigned (t.clientX - rect.left - finger.x)
             (t.clientY - rect.top - finger.y)).y]⟩]) := by
  induction pre with
  | nil =>
    simp only [List.nil_append, touchMoveScan]
    rw [if_pos hm]
  | cons p ps ih =>
    simp only [List.cons_append, touchMoveScan]
    rw [if_neg (hpre p (List.mem_cons_self p ps))]
    exact ih fun t' ht' => hpre t' (List.mem_cons_of_mem p ht')

/-- Scanning the changed-touch list with no entry matching the tracked id
keeps the finger and sends nothing (`onTouchEnd` loop falls through). -/
theorem touchEndScan_nomatch (conv : Converter) (rect? : Option Rect)
    (finger : FakeTouchFinger) (ts : List Touch)
    (h : ∀ t ∈ ts, t.identifier ≠ finger.id) :
    touchEndScan conv rect? finger ts = .ok (some finger, [], []) := by
  induction ts with
  | nil => rfl
  | cons t rest ih =>
    simp only [touchEndScan]
    rw [if_neg (h t (List.mem_cons_self t rest))]
    exact ih fun t' ht' => h t' (List.mem_cons_of_mem t ht')

/-- The `onTouchEnd` loop stops at the first matching touch: it clears the
finger, sends one `MouseUp` and dispatches one `mouseleave`, ignoring the
remaining entries. -/
theorem touchEndScan_first_match (conv : Converter) (rect : Rect)
    (finger : FakeTouchFinger) (pre : List Touch) (t : Touch) (rest : List Touch)
    (hpre : ∀ t' ∈ pre, t'.identifier ≠ finger.id) (hm : t.identifier = finger.id) :
    touchEndScan conv (some rect) finger (pre ++ t :: rest) =
      .ok (none,
        [⟨"MouseUp",
          [mainButton,
           (conv.normalizeAndQuantizeUnsigned (t.clientX - rect.left) (t.clientY - rect.top)).x,
           (conv.normalizeAndQuantizeUnsigned (t.clientX - rect.left) (t.clientY - rect.top)).y]⟩],
        [.mouseleave t.clientX t.clientY]) := by
  induction pre with
  | nil =>
    simp only [List.nil_append, touchEndScan]
    rw [if_pos hm]
  | cons p ps ih =>
    simp only [List.cons_append, touchEndScan]
    rw [if_neg (hpre p (List.mem_cons_self p ps))]
    exact ih fun t' ht' => hpre t' (List.mem_cons_of_mem p ht')

/-- With the rect set, the `onTouchMove` loop never throws. -/
theorem touchMoveScan_rect_ok (conv : Converter) (rect : Rect)
    (finger : FakeTouchFinger) (ts : List Touch) :
    ∃ res, touchMoveScan conv (some rect) finger ts = .ok res := by
  induction ts with
  | nil => exact ⟨_, rfl⟩
  | cons t rest ih =>
    simp only [touchMoveScan]
    by_cases hm : t.identifier = finger.id
    · rw [if_pos hm]; exact ⟨_, rfl⟩
    · rw [if_neg hm]; exact ih

/-- With the rect set, the `onTouchEnd` loop never throws. -/
theorem touchEndScan_rect_ok (conv : Converter) (rect : Rect)
    (finger : FakeTouchFinger) (ts : List Touch) :
    ∃ res, touchEndScan conv (some rect) finger ts = .ok res := by
  induction ts with
  | nil => exact ⟨_, rfl⟩
  | cons t rest ih =>
    simp only [touchEndScan]
    by_cases hm : t.identifier = finger.id
    · rw [if_pos hm]; exact ⟨_, rfl⟩
    · rw [if_neg hm]; exact ih

/-- C1 witness: the theorem evaluated at a concrete state and touch-start. -/
theorem C1_witness :
    onTouchStart true idConverter ⟨none, some ⟨10, 20⟩⟩
        ⟨Target.video, [⟨7, 110, 120⟩], [⟨7, 110, 120⟩]⟩ =
      .ok (⟨some ⟨7, 100, 100⟩, some ⟨10, 20⟩⟩,
        { messages := [⟨"MouseDown", [mainButton, 100, 100]⟩]
          hoverEvents := [.mouseenter 110 120]
          prevented := true }) := by
  simpa using C1_touchStart_creates_tracking idConverter ⟨none, some ⟨10, 20⟩⟩
    ⟨Target.video, [⟨7, 110, 120⟩], [⟨7, 110, 120⟩]⟩ ⟨7, 110, 120⟩ [] ⟨10, 20⟩
    rfl rfl rfl rfl

/-- C2 (amended: requires the video to be ready, since `onTouchMove` returns
before sending anything when `isVideoReady()` is false): in Tracking with the
video ready and the rect set, a touch-move with no touch matching the tracked
id sends nothing and leaves the state unchanged; a touch-move whose first
matching touch is `t` sends exactly one `MouseMove` with payload
`[u.x, u.y, d.x, d.y]`, `u = normalizeAndQuantizeUnsigned(newX, newY)` and
`d = normalizeAndQuantizeSigned(newX - oldX, newY - oldY)`, and stores
`(newX, newY)` as the finger position. -/
theorem C2_touchMove_tracking (conv : Converter) (s : State) (e : TouchEvent)
    (finger : FakeTouchFinger) (rect : Rect)
    (hf : s.fakeTouchFinger = some finger)
    (hr : s.videoElementParentClientRect = some rect) :
    ((∀ t ∈ e.touches, t.identifier ≠ finger.id) →
      onTouchMove true conv s e = .ok (s, ⟨[], [], true⟩)) ∧
    (∀ pre t rest, e.touches = pre ++ t :: rest →
      (∀ t' ∈ pre, t'.identifier ≠ finger.id) →
      t.identifier = finger.id →
      onTouchMove true conv s e =
        .ok (⟨some ⟨finger.id, t.clientX - rect.left, t.clientY - rect.top⟩, some rect⟩,
          ⟨[⟨"MouseMove",
            [(conv.normalizeAndQuantizeUnsigned (t.clientX - rect.left) (t.clientY - rect.top)).x,
             (conv.normalizeAndQuantizeUnsigned (t.clientX - rect.left) (t.clientY - rect.top)).y,
             (conv.normalizeAndQuantizeSigned (t.clientX - rect.left - finger.x)
               (t.clientY - rect.top - finger.y)).x,
             (conv.normalizeAndQuantizeSigned (t.clientX - rect.left - finger.x)
               (t.clientY - rect.top - finger.y)).y]⟩],
           [], true⟩)) := by
  obtain ⟨f, r⟩ := s
  simp only at hf hr
  subst hf hr
  constructor
  · intro hno
    simp only [onTouchMove]
    rw [if_neg (by simp)]
    rw [touchMoveScan_nomatch conv _ finger e.touches hno]
  · intro pre t rest he hpre hm
    simp only [onTouchMove]
    rw [if_neg (by simp), he,
      touchMoveScan_first_match conv rect finger pre t rest hpre hm]

/-- C2 witness: the amended theorem evaluated on a concrete Tracking state: a
non-matching id is ignored, and a matching second touch sends one MouseMove. -/
theorem C2_witness :
    onTouchMove true idConverter ⟨some ⟨7, 100, 100⟩, some ⟨10, 20⟩⟩
        ⟨Target.video, [⟨9, 0, 0⟩], []⟩ =
      .ok (⟨some ⟨7, 100, 100⟩, some ⟨10, 20⟩⟩, ⟨[], [], true⟩) ∧
    onTouchMove true idConverter ⟨some ⟨7, 100, 100⟩, some ⟨10, 20⟩⟩
        ⟨Target.video, [⟨9, 0, 0⟩, ⟨7, 160, 170⟩], []⟩ =
      .ok (⟨some ⟨7, 150, 150⟩, some ⟨10, 20⟩⟩,
        ⟨[⟨"MouseMove", [150, 150, 50, 50]⟩], [], true⟩) := by
  constructor
  · exact (C2_touchMove_tracking idConverter ⟨some ⟨7, 100, 100⟩, some ⟨10, 20⟩⟩
      ⟨Target.video, [⟨9, 0, 0⟩], []⟩ ⟨7, 100, 100⟩ ⟨10, 20⟩ rfl rfl).1 (by decide)
  · simpa using (C2_touchMove_tracking idConverter ⟨some ⟨7, 100, 100⟩, some ⟨10, 20⟩⟩
      ⟨Target.video, [⟨9, 0, 0⟩, ⟨7, 160, 170⟩], []⟩ ⟨7, 100, 100⟩ ⟨10, 20⟩ rfl rfl).2
      [⟨9, 0, 0⟩] ⟨7, 160, 170⟩ [] rfl (by decide) rfl

/-- C2 counterexample: in Tracking with the video NOT ready, a touch-move
whose touch matches the tracked id sends no `MouseMove` at all (the handler
returns at its readiness guard), refuting the claim's unconditional "for
every Tracking state". -/
theorem C2_counterexample_not_ready :
    onTouchMove false idConverter ⟨some ⟨7, 0, 0⟩, some ⟨0, 0⟩⟩
        ⟨Target.video, [⟨7, 30, 40⟩], []⟩ =
      .ok (⟨some ⟨7, 0, 0⟩, some ⟨0, 0⟩⟩, ⟨[], [], false⟩) := rfl

/-- C3 (amended: requires the video to be ready, since `onTouchEnd` returns
before sending anything when `isVideoReady()` is false): in Tracking with the
video ready and the rect set, a touch-end whose changed-touch list has no
matching id keeps the state and sends nothing; one whose first matching
changed touch is `t` sends exactly one `MouseUp` with payload
`[mainButton, u.x, u.y]`, dispatches exactly one `mouseleave` on the video
parent, clears the finger (back to Idle), and ignores the entries after the
first match. -/
theorem C3_touchEnd_tracking (conv : Converter) (s : State) (e : TouchEvent)
    (finger : FakeTouchFinger) (rect : Rect)
    (hf : s.fakeTouchFinger = some finger)
    (hr : s.videoElementParentClientRect = some rect) :
    ((∀ t ∈ e.changedTouches, t.identifier ≠ finger.id) →
      onTouchEnd true conv s e = .ok (s, ⟨[], [], true⟩)) ∧
    (∀ pre t rest, e.changedTouches = pre ++ t :: rest →
      (∀ t' ∈ pre, t'.identifier ≠ finger.id) →
      t.identifier = finger.id →
      onTouchEnd true conv s e =
        .ok (⟨none, some rect⟩,
          ⟨[⟨"MouseUp",
            [mainButton,
             (conv.normalizeAndQuantizeUnsigned (t.clientX - rect.left) (t.clientY - rect.top)).x,
             (conv.normalizeAndQuantizeUnsigned (t.clientX - rect.left) (t.clientY - rect.top)).y]⟩],
           [.mouseleave t.clientX t.clientY], true⟩)) := by
  obtain ⟨f, r⟩ := s
  simp only at hf hr
  subst hf hr
  constructor
  · intro hno
    simp only [onTouchEnd]
    rw [if_neg (by simp)]
    rw [touchEndScan_nomatch conv _ finger e.changedTouches hno]
  · intro pre t rest he hpre hm
    simp only [onTouchEnd]
    rw [if_neg (by simp), he,
      touchEndScan_first_match conv rect finger pre t rest hpre hm]

/-- C3 witness: the amended theorem evaluated on a concrete Tracking state: a
non-matching touch-end is ignored, a matching one releases the finger with
one MouseUp and one mouseleave, with a trailing entry left unscanned. -/
theorem C3_witness :
    onTouchEnd true idConverter ⟨some ⟨7, 150, 150⟩, some ⟨10, 20⟩⟩
        ⟨Target.video, [], [⟨9, 0, 0⟩]⟩ =
      .ok (⟨some ⟨7, 150, 150⟩, some ⟨10, 20⟩⟩, ⟨[], [], true⟩) ∧
    onTouchEnd true idConverter ⟨some ⟨7, 150, 150⟩, some ⟨10, 20⟩⟩
        ⟨Target.video, [], [⟨9, 0, 0⟩, ⟨7, 160, 170⟩, ⟨7, 999, 999⟩]⟩ =
      .ok (⟨none, some ⟨10, 20⟩⟩,
        ⟨[⟨"MouseUp", [mainButton, 150, 150]⟩], [.mouseleave 160 170], true⟩) := by
  constructor
  · exact (C3_touchEnd_tracking idConverter ⟨some ⟨7, 150, 150⟩, some ⟨10, 20⟩⟩
      ⟨Target.video, [], [⟨9, 0, 0⟩]⟩ ⟨7, 150, 150⟩ ⟨10, 20⟩ rfl rfl).1 (by decide)
  · simpa using (C3_touchEnd_tracking idConverter ⟨some ⟨7, 150, 150⟩, some ⟨10, 20⟩⟩
      ⟨Target.video, [], [⟨9, 0, 0⟩, ⟨7, 160, 170⟩, ⟨7, 999, 999⟩]⟩ ⟨7, 150, 150⟩ ⟨10, 20⟩
      rfl rfl).2 [⟨9, 0, 0⟩] ⟨7, 160, 170⟩ [⟨7, 999, 999⟩] rfl (by decide) rfl

/-- C3 counterexample: in Tracking with the video NOT ready, a touch-end whose
changed touch matches the tracked id sends no `MouseUp`, dispatches nothing
and does NOT clear the finger (the handler returns at its readiness guard),
refuting the claim's unconditional "for every Tracking state". -/
theorem C3_counterexample_not_ready :
    onTouchEnd false idConverter ⟨some ⟨5, 2, 2⟩, some ⟨0, 0⟩⟩
        ⟨Target.video, [], [⟨5, 50, 60⟩]⟩ =
      .ok (⟨some ⟨5, 2, 2⟩, some ⟨0, 0⟩⟩, ⟨[], [], false⟩) := rfl

/-- C4 (amended: requires the video to be ready and the rect to be set; the
handlers return before `preventDefault` when `isVideoReady()` is false, and a
matching touch with the rect never set throws before reaching
`preventDefault`): while a finger is tracked, the video is ready and the rect
is set, every touch-move and every touch-end completes with `preventDefault`
called, whether or not any touch matched the tracked id. -/
theorem C4_preventDefault_tracking (conv : Converter) (s : State)
    (e1 e2 : TouchEvent) (finger : FakeTouchFinger) (rect : Rect)
    (hf : s.fakeTouchFinger = some finger)
    (hr : s.videoElementParentClientRect = some rect) :
    (∃ s1 out1, onTouchMove true conv s e1 = .ok (s1, out1) ∧ out1.prevented = true) ∧
    (∃ s2 out2, onTouchEnd true conv s e2 = .ok (s2, out2) ∧ out2.prevented = true) := by
  constructor
  · obtain ⟨⟨finger', msgs⟩, hscan⟩ := touchMoveScan_rect_ok conv rect finger e1.touches
    refine ⟨{ s with fakeTouchFinger := some finger' }, ⟨msgs, [], true⟩, ?_, rfl⟩
    simp only [onTouchMove]
    rw [if_neg (by simp), hf, hr]
    simp [hscan]
  · obtain ⟨⟨finger?, msgs, hovs⟩, hscan⟩ := touchEndScan_rect_ok conv rect finger e2.changedTouches
    refine ⟨{ s with fakeTouchFinger := finger? }, ⟨msgs, hovs, true⟩, ?_, rfl⟩
    simp only [onTouchEnd]
    rw [if_neg (by simp), hf, hr]
    simp [hscan]

/-- C4 witness: the amended theorem evaluated on a concrete Tracking state
with events whose touches do not match the tracked id. -/
theorem C4_witness :
    (∃ s1 out1, onTouchMove true idConverter ⟨some ⟨4, 3, 3⟩, some ⟨1, 1⟩⟩
        ⟨Target.video, [⟨8, 6, 6⟩], []⟩ = .ok (s1, out1) ∧ out1.prevented = true) ∧
    (∃ s2 out2, onTouchEnd true idConverter ⟨some ⟨4, 3, 3⟩, some ⟨1, 1⟩⟩
        ⟨Target.video, [], [⟨8, 6, 6⟩]⟩ = .ok (s2, out2) ∧ out2.prevented = true) :=
  C4_preventDefault_tracking idConverter ⟨some ⟨4, 3, 3⟩, some ⟨1, 1⟩⟩
    ⟨Target.video, [⟨8, 6, 6⟩], []⟩ ⟨Target.video, [], [⟨8, 6, 6⟩]⟩
    ⟨4, 3, 3⟩ ⟨1, 1⟩ rfl rfl

/-- C4 counterexample: while a finger is tracked but the video is NOT ready,
a touch-end returns at the readiness guard without calling `preventDefault`
(`prevented = false`), refuting the claim that default behavior is suppressed
for every touch-move/touch-end whenever the state is Tracking. -/
theorem C4_counterexample_not_ready :
    onTouchEnd false idConverter ⟨some ⟨3, 1, 1⟩, some ⟨0, 0⟩⟩
        ⟨Target.video, [], [⟨3, 8, 8⟩]⟩ =
      .ok (⟨some ⟨3, 1, 1⟩, some ⟨0, 0⟩⟩, ⟨[], [], false⟩) := rfl

/-- C6: a touch-start targeting the video while the video is ready and a
finger is already tracked sends no message, dispatches no hover event and
leaves the state (finger id, x, y and rect) exactly as it was, yet still
calls `preventDefault`. -/
theorem C6_touchStart_while_tracking (conv : Converter) (s : State) (e : TouchEvent)
    (finger : FakeTouchFinger)
    (hf : s.fakeTouchFinger = some finger)
    (ht : e.target = Target.video) :
    onTouchStart true conv s e = .ok (s, ⟨[], [], true⟩) := by
  simp only [onTouchStart]
  rw [if_neg (by simp [ht]), hf]

/-- C6 witness: the theorem evaluated on a concrete Tracking state. -/
theorem C6_witness :
    onTouchStart true idConverter ⟨some ⟨7, 100, 100⟩, some ⟨10, 20⟩⟩
        ⟨Target.video, [⟨2, 0, 0⟩], [⟨2, 0, 0⟩]⟩ =
      .ok (⟨some ⟨7, 100, 100⟩, some ⟨10, 20⟩⟩, ⟨[], [], true⟩) :=
  C6_touchStart_while_tracking idConverter ⟨some ⟨7, 100, 100⟩, some ⟨10, 20⟩⟩
    ⟨Target.video, [⟨2, 0, 0⟩], [⟨2, 0, 0⟩]⟩ ⟨7, 100, 100⟩ rfl rfl

/-- C9: while a finger is tracked and the video reports not ready, every
touch-move and every touch-end is ignored entirely: no message, the finger is
neither updated nor cleared, and `preventDefault` is not called — so while
the video is not ready a tracked finger can never be released by a touch-end. -/
theorem C9_not_ready_ignores_move_end (conv : Converter) (s : State)
    (e1 e2 : TouchEvent) (finger : FakeTouchFinger)
    (_hf : s.fakeTouchFinger = some finger) :
    onTouchMove false conv s e1 = .ok (s, ⟨[], [], false⟩) ∧
    onTouchEnd false conv s e2 = .ok (s, ⟨[], [], false⟩) := by
  constructor <;> simp [onTouchMove, onTouchEnd, silentOutput]

/-- C9 witness: the theorem evaluated on a concrete Tracking state with
events whose touches match the tracked id, showing they are still ignored. -/
theorem C9_witness :
    onTouchMove false idConverter ⟨some ⟨6, 4, 4⟩, some ⟨0, 0⟩⟩
        ⟨Target.video, [⟨6, 9, 9⟩], []⟩ =
      .ok (⟨some ⟨6, 4, 4⟩, some ⟨0, 0⟩⟩, ⟨[], [], false⟩) ∧
    onTouchEnd false idConverter ⟨some ⟨6, 4, 4⟩, some ⟨0, 0⟩⟩
        ⟨Target.video, [], [⟨6, 9, 9⟩]⟩ =
      .ok (⟨some ⟨6, 4, 4⟩, some ⟨0, 0⟩⟩, ⟨[], [], false⟩) :=
  C9_not_ready_ignores_move_end idConverter ⟨some ⟨6, 4, 4⟩, some ⟨0, 0⟩⟩
    ⟨Target.video, [⟨6, 9, 9⟩], []⟩ ⟨Target.video, [], [⟨6, 9, 9⟩]⟩ ⟨6, 4, 4⟩ rfl

/-- Whatever the `onTouchMove` loop returns, the finger's id is unchanged:
the update writes only `x` and `y`. -/
theorem touchMoveScan_ok_id (conv : Converter) (rect? : Option Rect)
    (finger finger' : FakeTouchFinger) (ts : List Touch) (msgs : List StreamMessage)
    (h : touchMoveScan conv rect? finger ts = .ok (finger', msgs)) :
    finger'.id = finger.id := by
  induction ts with
  | nil =>
    simp only [touchMoveScan, Except.ok.injEq, Prod.mk.injEq] at h
    rw [← h.1]
  | cons t rest ih =>
    simp only [touchMoveScan] at h
    by_cases hm : t.identifier = finger.id
    · rw [if_pos hm] at h
      cases rect? with
      | none => simp at h
      | some rect =>
        simp only [Except.ok.injEq, Prod.mk.injEq] at h
        rw [← h.1]
    · rw [if_neg hm] at h
      exact ih h

/-- Whatever the `onTouchEnd` loop returns, either the finger survives
untouched with no output, or it is cleared and some scanned touch carried the
tracked id. -/
theorem touchEndScan_ok_cases (conv : Converter) (rect? : Option Rect)
    (finger : FakeTouchFinger) (ts : List Touch) (res : Option FakeTouchFinger)
    (msgs : List StreamMessage) (hovs : List HoverEvent)
    (h : touchEndScan conv rect? finger ts = .ok (res, msgs, hovs)) :
    (res = some finger ∧ msgs = [] ∧ hovs = []) ∨
    (res = none ∧ ∃ t ∈ ts, t.identifier = finger.id) := by
  induction ts with
  | nil =>
    left
    simp only [touchEndScan, Except.ok.injEq, Prod.mk.injEq] at h
    exact ⟨h.1.symm, h.2.1.symm, h.2.2.symm⟩
  | cons t rest ih =>
    simp only [touchEndScan] at h
    by_cases hm : t.identifier = finger.id
    · rw [if_pos hm] at h
      cases rect? with
      | none => simp at h
      | some rect =>
        right
        simp only [Except.ok.injEq, Prod.mk.injEq] at h
        exact ⟨h.1.symm, t, List.mem_cons_self t rest, hm⟩
    · rw [if_neg hm] at h
      rcases ih h with hkeep | ⟨hnone, t', ht', hid⟩
      · exact Or.inl hkeep
      · exact Or.inr ⟨hnone, t', List.mem_cons_of_mem t ht', hid⟩

/-- `onTouchStart` either leaves the state alone or, starting from no tracked
finger, creates one whose id is the first changed touch's identifier. -/
theorem onTouchStart_finger_cases (ready : Bool) (conv : Converter) (s s' : State)
    (e : TouchEvent) (out : Output)
    (h : onTouchStart ready conv s e = .ok (s', out)) :
    s' = s ∨
    (s.fakeTouchFinger = none ∧ ∃ t rest f', e.changedTouches = t :: rest ∧
      f'.id = t.identifier ∧ s'.fakeTouchFinger = some f') := by
  simp only [onTouchStart] at h
  split at h
  · simp only [Except.ok.injEq, Prod.mk.injEq] at h
    exact Or.inl h.1.symm
  · split at h
    · rename_i hf
      split at h
      · simp at h
      · rename_i t rest hc
        split at h
        · simp at h
        · rename_i rect hr
          simp only [Except.ok.injEq, Prod.mk.injEq] at h
          refine Or.inr ⟨hf, t, rest,
            ⟨t.identifier, t.clientX - rect.left, t.clientY - rect.top⟩, hc, rfl, ?_⟩
          rw [← h.1]
    · rename_i g hf
      simp only [Except.ok.injEq, Prod.mk.injEq] at h
      exact Or.inl h.1.symm

/-- `onTouchMove` either leaves the state alone or replaces the tracked
finger by one with the same id. -/
theorem onTouchMove_finger_cases (ready : Bool) (conv : Converter) (s s' : State)
    (e : TouchEvent) (out : Output)
    (h : onTouchMove ready conv s e = .ok (s', out)) :
    s' = s ∨
    (∃ f f', s.fakeTouchFinger = some f ∧ s'.fakeTouchFinger = some f' ∧ f'.id = f.id) := by
  simp only [onTouchMove] at h
  split at h
  · simp only [Except.ok.injEq, Prod.mk.injEq] at h
    exact Or.inl h.1.symm
  · split at h
    · simp only [Except.ok.injEq, Prod.mk.injEq] at h
      exact Or.inl h.1.symm
    · rename_i finger hf
      split at h
      · simp at h
      · rename_i finger' msgs hscan
        simp only [Except.ok.injEq, Prod.mk.injEq] at h
        refine Or.inr ⟨finger, finger', hf, ?_,
          touchMoveScan_ok_id conv _ finger finger' e.touches msgs hscan⟩
        rw [← h.1]

/-- `onTouchEnd` either leaves the state alone or clears the tracked finger,
and it clears it only when ready and some changed touch carries the tracked
id. -/
theorem onTouchEnd_finger_cases (ready : Bool) (conv : Converter) (s s' : State)
    (e : TouchEvent) (out : Output)
    (h : onTouchEnd ready conv s e = .ok (s', out)) :
    s' = s ∨
    (ready = true ∧ ∃ f, s.fakeTouchFinger = some f ∧ s'.fakeTouchFinger = none ∧
      ∃ t ∈ e.changedTouches, t.identifier = f.id) := by
  simp only [onTouchEnd] at h
  split at h
  · simp only [Except.ok.injEq, Prod.mk.injEq] at h
    exact Or.inl h.1.symm
  · rename_i hready
    split at h
    · simp only [Except.ok.injEq, Prod.mk.injEq] at h
      exact Or.inl h.1.symm
    · rename_i finger hf
      split at h
      · simp at h
      · rename_i finger? msgs hovs hscan
        simp only [Except.ok.injEq, Prod.mk.injEq] at h
        rcases touchEndScan_ok_cases conv _ finger e.changedTouches finger? msgs hovs hscan with
          ⟨hkeep, -, -⟩ | ⟨hnone, t, ht, hid⟩
        · left
          rw [← h.1, hkeep, ← hf]
        · right
          refine ⟨Bool.of_not_eq_false hready, finger, hf, ?_, t, ht, hid⟩
          rw [← h.1, hnone]

/-- C5: in every state, a step creates a finger only from a touch-start and
with the first changed touch's identifier, never changes a live finger's id
(moves write only x and y), and clears a live finger only on a touch-end that
is delivered while ready and carries a matching id in its changed-touch
list — together with the `Option`-valued `fakeTouchFinger` field this is the
single-tracked-finger invariant over every reachable state. -/
theorem C5_single_finger_invariant (conv : Converter) (p : Bool × Event)
    (s s' : State) (out : Output)
    (h : step conv s p = .ok (s', out)) :
    (s.fakeTouchFinger = none →
      ∀ f', s'.fakeTouchFinger = some f' →
        ∃ e t rest, p.2 = Event.touchStart e ∧ e.changedTouches = t :: rest ∧
          f'.id = t.identifier) ∧
    (∀ f f', s.fakeTouchFinger = some f → s'.fakeTouchFinger = some f' → f'.id = f.id) ∧
    (∀ f, s.fakeTouchFinger = some f → s'.fakeTouchFinger = none →
      ∃ e, p.2 = Event.touchEnd e ∧ p.1 = true ∧
        ∃ t ∈ e.changedTouches, t.identifier = f.id) := by
  obtain ⟨ready, ev⟩ := p
  cases ev with
  | touchStart e =>
    rcases onTouchStart_finger_cases ready conv s s' e out h with
      heq | ⟨hnone, t, rest, f', hc, hid, hf'⟩
    · subst heq
      refine ⟨?_, ?_, ?_⟩
      · intro hn g hg
        rw [hn] at hg
        exact absurd hg (by simp)
      · intro f g hf hg
        rw [hf] at hg
        rw [Option.some.inj hg]
      · intro f hf hn
        rw [hf] at hn
        exact absurd hn (by simp)
    · refine ⟨?_, ?_, ?_⟩
      · intro _ g hg
        refine ⟨e, t, rest, rfl, hc, ?_⟩
        rw [hf'] at hg
        rw [← Option.some.inj hg]
        exact hid
      · intro f g hf hg
        rw [hnone] at hf
        exact absurd hf (by simp)
      · intro f hf hn
        rw [hnone] at hf
        exact absurd hf (by simp)
  | touchMove e =>
    rcases onTouchMove_finger_cases ready conv s s' e out h with
      heq | ⟨f, f', hf, hf', hid⟩
    · subst heq
      refine ⟨?_, ?_, ?_⟩
      · intro hn g hg
        rw [hn] at hg
        exact absurd hg (by simp)
      · intro f g hf hg
        rw [hf] at hg
        rw [Option.some.inj hg]
      · intro f hf hn
        rw [hf] at hn
        exact absurd hn (by simp)
    · refine ⟨?_, ?_, ?_⟩
      · intro hn g hg
        rw [hn] at hf
        exact absurd hf (by simp)
      · intro g g' hg hg'
        rw [hf] at hg
        rw [hf'] at hg'
        rw [← Option.some.inj hg', ← Option.some.inj hg]
        exact hid
      · intro g hg hn
        rw [hf'] at hn
        exact absurd hn (by simp)
  | touchEnd e =>
    rcases onTouchEnd_finger_cases ready conv s s' e out h with
      heq | ⟨hready, f, hf, hnone', t, ht, hid⟩
    · subst heq
      refine ⟨?_, ?_, ?_⟩
      · intro hn g hg
        rw [hn] at hg
        exact absurd hg (by simp)
      · intro f g hf hg
        rw [hf] at hg
        rw [Option.some.inj hg]
      · intro f hf hn
        rw [hf] at hn
        exact absurd hn (by simp)
    · refine ⟨?_, ?_, ?_⟩
      · intro hn g hg
        rw [hn] at hf
        exact absurd hf (by simp)
      · intro g g' hg hg'
        rw [hnone'] at hg'
        exact absurd hg' (by simp)
      · intro g hg hn
        refine ⟨e, rfl, hready, t, ht, ?_⟩
        rw [hf] at hg
        rw [← Option.some.inj hg]
        exact hid
  | setRect r =>
    simp only [step, setVideoElementParentClientRect, Except.ok.injEq, Prod.mk.injEq] at h
    have hsf : s'.fakeTouchFinger = s.fakeTouchFinger := by rw [← h.1]
    refine ⟨?_, ?_, ?_⟩
    · intro hn g hg
      rw [hsf, hn] at hg
      exact absurd hg (by simp)
    · intro f g hf hg
      rw [hsf, hf] at hg
      rw [Option.some.inj hg]
    · intro f hf hn
      rw [hsf, hf] at hn
      exact absurd hn (by simp)

/-- C5 witness: a concrete matching touch-end step clears the finger, and the
theorem's third conjunct names the touch-end and its matching touch. -/
theorem C5_witness :
    ∃ e, ((true, Event.touchEnd ⟨Target.video, [], [⟨3, 9, 9⟩]⟩) : Bool × Event).2 =
        Event.touchEnd e ∧
      ((true, Event.touchEnd ⟨Target.video, [], [⟨3, 9, 9⟩]⟩) : Bool × Event).1 = true ∧
      ∃ t ∈ e.changedTouches, t.identifier = (3 : Int) :=
  (C5_single_finger_invariant idConverter (true, Event.touchEnd ⟨Target.video, [], [⟨3, 9, 9⟩]⟩)
    ⟨some ⟨3, 1, 2⟩, some ⟨0, 0⟩⟩ ⟨none, some ⟨0, 0⟩⟩
    ⟨[⟨"MouseUp", [mainButton, 9, 9]⟩], [.mouseleave 9 9], true⟩
    (by simp [step, onTouchEnd, touchEndScan, idConverter])).2.2 ⟨3, 1, 2⟩ rfl rfl

/-- C7: guarded-out events are complete no-ops without suppression: a
touch-start while Idle that is not ready or does not target the video leaves
the state unchanged with no message, no hover event and no `preventDefault`;
every touch-move or touch-end while Idle is likewise a total no-op; and any
sequence of guarded-out touch-starts from an Idle state sends no message and
ends in that same Idle state. -/
theorem C7_guarded_out_noops (conv : Converter) :
    (∀ (ready : Bool) (s : State) (e : TouchEvent), s.fakeTouchFinger = none →
      (ready = false ∨ e.target ≠ Target.video) →
      onTouchStart ready conv s e = .ok (s, ⟨[], [], false⟩)) ∧
    (∀ (ready : Bool) (s : State) (e : TouchEvent), s.fakeTouchFinger = none →
      onTouchMove ready conv s e = .ok (s, ⟨[], [], false⟩) ∧
      onTouchEnd ready conv s e = .ok (s, ⟨[], [], false⟩)) ∧
    (∀ (s : State) (evs : List (Bool × TouchEvent)), s.fakeTouchFinger = none →
      (∀ q ∈ evs, q.1 = false ∨ q.2.target ≠ Target.video) →
      runTrace conv s (evs.map fun q => (q.1, Event.touchStart q.2)) = .ok (s, [])) := by
  refine ⟨?_, ?_, ?_⟩
  · intro ready s e _ hg
    simp only [onTouchStart]
    rw [if_pos hg]
    rfl
  · intro ready s e hf
    constructor
    · simp only [onTouchMove]
      cases ready
      · rw [if_pos rfl]; rfl
      · rw [if_neg (by simp), hf]; rfl
    · simp only [onTouchEnd]
      cases ready
      · rw [if_pos rfl]; rfl
      · rw [if_neg (by simp), hf]; rfl
  · intro s evs hf
    induction evs with
    | nil => intro _; rfl
    | cons q rest ih =>
      intro hall
      have hstep : onTouchStart q.1 conv s q.2 = .ok (s, ⟨[], [], false⟩) := by
        simp only [onTouchStart]
        rw [if_pos (hall q (List.mem_cons_self q rest))]
        rfl
      simp only [List.map_cons, runTrace, step, hstep,
        ih fun q' hq' => hall q' (List.mem_cons_of_mem q hq')]
      rfl

/-- C7 witness: a not-ready touch-start followed by one on a non-video target
leave the initial Idle state unchanged with an empty message trace. -/
theorem C7_witness :
    runTrace idConverter ⟨none, none⟩
      [(false, Event.touchStart ⟨Target.video, [], [⟨1, 2, 3⟩]⟩),
       (true, Event.touchStart ⟨Target.other, [], [⟨1, 2, 3⟩]⟩)] =
      .ok (⟨none, none⟩, []) :=
  (C7_guarded_out_noops idConverter).2.2 ⟨none, none⟩
    [(false, ⟨Target.video, [], [⟨1, 2, 3⟩]⟩), (true, ⟨Target.other, [], [⟨1, 2, 3⟩]⟩)]
    rfl (by decide)

/-- C8: with rect left 10, top 20 cached, the video ready and all touches on
the video element, the scenario touch-start at client (110,120), touch-move
to (160,170), touch-end at (160,170) with one identifier produces exactly the
trace MouseDown at u(100,100), MouseMove at u(150,150) with delta d(50,50),
MouseUp at u(150,150), and ends Idle. -/
theorem C8_scenario_trace (conv : Converter) :
    runTrace conv ⟨none, some ⟨10, 20⟩⟩
      [(true, .touchStart ⟨Target.video, [⟨7, 110, 120⟩], [⟨7, 110, 120⟩]⟩),
       (true, .touchMove ⟨Target.video, [⟨7, 160, 170⟩], [⟨7, 160, 170⟩]⟩),
       (true, .touchEnd ⟨Target.video, [], [⟨7, 160, 170⟩]⟩)] =
      .ok (⟨none, some ⟨10, 20⟩⟩,
        [⟨"MouseDown", [mainButton,
            (conv.normalizeAndQuantizeUnsigned 100 100).x,
            (conv.normalizeAndQuantizeUnsigned 100 100).y]⟩,
         ⟨"MouseMove", [(conv.normalizeAndQuantizeUnsigned 150 150).x,
            (conv.normalizeAndQuantizeUnsigned 150 150).y,
            (conv.normalizeAndQuantizeSigned 50 50).x,
            (conv.normalizeAndQuantizeSigned 50 50).y]⟩,
         ⟨"MouseUp", [mainButton,
            (conv.normalizeAndQuantizeUnsigned 150 150).x,
            (conv.normalizeAndQuantizeUnsigned 150 150).y]⟩]) := rfl

/-- `onTouchStart` never reaches its unset-rect branch once the rect is set. -/
theorem onTouchStart_no_rectUnset (ready : Bool) (conv : Converter) (s : State)
    (e : TouchEvent) (rect : Rect)
    (hr : s.videoElementParentClientRect = some rect) :
    onTouchStart ready conv s e ≠ .error TsError.rectUnset := by
  obtain ⟨f?, r?⟩ := s
  simp only at hr
  subst hr
  simp only [onTouchStart]
  split
  · simp
  · cases f? with
    | none =>
      cases e.changedTouches with
      | nil => simp
      | cons t rest => simp
    | some g => simp

/-- `onTouchMove` never reaches its unset-rect branch once the rect is set. -/
theorem onTouchMove_no_rectUnset (ready : Bool) (conv : Converter) (s : State)
    (e : TouchEvent) (rect : Rect)
    (hr : s.videoElementParentClientRect = some rect) :
    onTouchMove ready conv s e ≠ .error TsError.rectUnset := by
  obtain ⟨f?, r?⟩ := s
  simp only at hr
  subst hr
  simp only [onTouchMove]
  split
  · simp
  · cases f? with
    | none => simp
    | some finger =>
      obtain ⟨⟨finger', msgs⟩, hres⟩ := touchMoveScan_rect_ok conv rect finger e.touches
      simp [hres]

/-- `onTouchEnd` never reaches its unset-rect branch once the rect is set. -/
theorem onTouchEnd_no_rectUnset (ready : Bool) (conv : Converter) (s : State)
    (e : TouchEvent) (rect : Rect)
    (hr : s.videoElementParentClientRect = some rect) :
    onTouchEnd ready conv s e ≠ .error TsError.rectUnset := by
  obtain ⟨f?, r?⟩ := s
  simp only at hr
  subst hr
  simp only [onTouchEnd]
  split
  · simp
  · cases f? with
    | none => simp
    | some finger =>
      obtain ⟨⟨finger?, msgs, hovs⟩, hres⟩ := touchEndScan_rect_ok conv rect finger e.changedTouches
      simp [hres]

/-- `onTouchStart` never changes the cached rect. -/
theorem onTouchStart_rect (ready : Bool) (conv : Converter) (s s' : State)
    (e : TouchEvent) (out : Output)
    (h : onTouchStart ready conv s e = .ok (s', out)) :
    s'.videoElementParentClientRect = s.videoElementParentClientRect := by
  rcases onTouchStart_finger_cases ready conv s s' e out h with heq | ⟨-, -, -, f', -, -, hf'⟩
  · rw [heq]
  · simp only [onTouchStart] at h
    split at h
    · simp only [Except.ok.injEq, Prod.mk.injEq] at h
      rw [← h.1]
    · split at h
      · split at h
        · simp at h
        · split at h
          · simp at h
          · simp only [Except.ok.injEq, Prod.mk.injEq] at h
            rw [← h.1]
      · simp only [Except.ok.injEq, Prod.mk.injEq] at h
        rw [← h.1]

/-- `onTouchMove` never changes the cached rect. -/
theorem onTouchMove_rect (ready : Bool) (conv : Converter) (s s' : State)
    (e : TouchEvent) (out : Output)
    (h : onTouchMove ready conv s e = .ok (s', out)) :
    s'.videoElementParentClientRect = s.videoElementParentClientRect := by
  simp only [onTouchMove] at h
  split at h
  · simp only [Except.ok.injEq, Prod.mk.injEq] at h
    rw [← h.1]
  · split at h
    · simp only [Except.ok.injEq, Prod.mk.injEq] at h
      rw [← h.1]
    · split at h
      · simp at h
      · simp only [Except.ok.injEq, Prod.mk.injEq] at h
        rw [← h.1]

/-- `onTouchEnd` never changes the cached rect. -/
theorem onTouchEnd_rect (ready : Bool) (conv : Converter) (s s' : State)
    (e : TouchEvent) (out : Output)
    (h : onTouchEnd ready conv s e = .ok (s', out)) :
    s'.videoElementParentClientRect = s.videoElementParentClientRect := by
  simp only [onTouchEnd] at h
  split at h
  · simp only [Except.ok.injEq, Prod.mk.injEq] at h
    rw [← h.1]
  · split at h
    · simp only [Except.ok.injEq, Prod.mk.injEq] at h
      rw [← h.1]
    · split at h
      · simp at h
      · simp only [Except.ok.injEq, Prod.mk.injEq] at h
        rw [← h.1]

/-- No step can reach the unset-rect branch once the rect is set. -/
theorem step_no_rectUnset (conv : Converter) (s : State) (p : Bool × Event) (rect : Rect)
    (hr : s.videoElementParentClientRect = some rect) :
    step conv s p ≠ .error TsError.rectUnset := by
  obtain ⟨ready, ev⟩ := p
  cases ev with
  | touchStart e => exact onTouchStart_no_rectUnset ready conv s e rect hr
  | touchMove e => exact onTouchMove_no_rectUnset ready conv s e rect hr
  | touchEnd e => exact onTouchEnd_no_rectUnset ready conv s e rect hr
  | setRect r => simp [step]

/-- Every successful step out of a rect-set state ends in a rect-set state. -/
theorem step_rect_some (conv : Converter) (s : State) (p : Bool × Event)
    (s' : State) (out : Output) (rect : Rect)
    (hr : s.videoElementParentClientRect = some rect)
    (h : step conv s p = .ok (s', out)) :
    ∃ rect', s'.videoElementParentClientRect = some rect' := by
  obtain ⟨ready, ev⟩ := p
  cases ev with
  | touchStart e => exact ⟨rect, (onTouchStart_rect ready conv s s' e out h).trans hr⟩
  | touchMove e => exact ⟨rect, (onTouchMove_rect ready conv s s' e out h).trans hr⟩
  | touchEnd e => exact ⟨rect, (onTouchEnd_rect ready conv s s' e out h).trans hr⟩
  | setRect r =>
    simp only [step, setVideoElementParentClientRect, Except.ok.injEq, Prod.mk.injEq] at h
    exact ⟨r, by rw [← h.1]⟩

/-- From any rect-set state, no event sequence ever reaches the unset-rect
branch. -/
theorem runTrace_no_rectUnset (conv : Converter) (evs : List (Bool × Event)) :
    ∀ (s : State) (rect : Rect), s.videoElementParentClientRect = some rect →
      runTrace conv s evs ≠ .error TsError.rectUnset := by
  induction evs with
  | nil =>
    intro s rect hr hc
    simp [runTrace] at hc
  | cons p rest ih =>
    intro s rect hr hc
    simp only [runTrace] at hc
    split at hc
    · rename_i err hstep
      injection hc with hc'
      subst hc'
      exact (step_no_rectUnset conv s p rect hr) hstep
    · rename_i s' out hstep
      split at hc
      · rename_i err2 htr
        injection hc with hc'
        subst hc'
        obtain ⟨rect', hr'⟩ := step_rect_some conv s p s' out rect hr hstep
        exact ih s' rect' hr' htr
      · simp at hc

/-- C10: once `setVideoElementParentClientRect` has run (the rect is set), no
sequence of events can reach the unset-rect error branch; and without that
precondition a qualifying touch-start from the constructor state reaches the
unset-rect access instead of degrading to a silent no-op. -/
theorem C10_rect_precondition (conv : Converter) :
    (∀ (s : State) (rect : Rect) (evs : List (Bool × Event)),
      s.videoElementParentClientRect = some rect →
      runTrace conv s evs ≠ .error TsError.rectUnset) ∧
    (∀ (e : TouchEvent) (t : Touch) (rest : List Touch),
      e.target = Target.video → e.changedTouches = t :: rest →
      onTouchStart true conv initialState e = .error TsError.rectUnset) := by
  constructor
  · intro s rect evs hr
    exact runTrace_no_rectUnset conv evs s rect hr
  · intro e t rest ht hc
    simp [onTouchStart, ht, hc, initialState]

/-- C10 witness: after setting the rect a qualifying touch-start succeeds
without the unset-rect error; from the raw constructor state the same
touch-start throws it. -/
theorem C10_witness :
    runTrace idConverter ⟨none, some ⟨0, 0⟩⟩
        [(true, Event.touchStart ⟨Target.video, [], [⟨1, 5, 6⟩]⟩)] ≠
      .error TsError.rectUnset ∧
    onTouchStart true idConverter initialState ⟨Target.video, [], [⟨1, 5, 6⟩]⟩ =
      .error TsError.rectUnset :=
  ⟨(C10_rect_precondition idConverter).1 ⟨none, some ⟨0, 0⟩⟩ ⟨0, 0⟩
      [(true, Event.touchStart ⟨Target.video, [], [⟨1, 5, 6⟩]⟩)] rfl,
    (C10_rect_precondition idConverter).2 ⟨Target.video, [], [⟨1, 5, 6⟩]⟩ ⟨1, 5, 6⟩ [] rfl rfl⟩

end TouchControllerFake
